import Mathlib

/-!
Shallow embedding of the `nuclino-rs` client library (a typed Rust client for
the Nuclino wiki HTTP API) and proofs about its specification.

Source files embedded:
- `src/errors.rs`: the `NuclinoError` taxonomy and `make_error`.
- `src/response_types.rs`: the `Response` envelope, `ResponseInfo` accessors,
  and the `List` results wrapper.
- `src/request_types.rs`: `PageKind`, `NewPage`, `NewPageBuilder`, `ModifyItem`.
- `src/types.rs`: `FieldType`, `Page` (Item | Collection) and accessors.
- `src/lib.rs`: `Client::create`, `Client::create_from_env`,
  `Client::process_response`, and the URL construction of
  `all_pages_for_team` / `all_pages_for_workspace`.

Rust `Uuid` values are modelled as strings (their wire form), `u16`/`usize`
as `Nat`, and JSON documents as an explicit inductive `Json` type so that the
serde-derived serialization and deserialization attached to the types by
their attributes can be stated and proved.
-/

namespace Nuclino

/-- The error enum from `src/errors.rs` (`NuclinoError`). Payloads carried by
variants keep their source shapes; `IoError` and `JsonError` wrap the foreign
error's message text. -/
inductive NuclinoError where
  | ApiKeyNotFound : NuclinoError
  | ClientError (status : Nat) (message : String) : NuclinoError
  | ServerError (status : Nat) (message : String) : NuclinoError
  | RequestError (text : String) : NuclinoError
  | IoError (text : String) : NuclinoError
  | JsonError (text : String) : NuclinoError
  | NoDataReturned : NuclinoError
  | ProgrammerError : NuclinoError
deriving DecidableEq, Repr

/-- Function `make_error` from `src/errors.rs`: statuses below 500 become
`ClientError`, the rest `ServerError`. -/
def make_error (status : Nat) (message : String) : NuclinoError :=
  if status < 500 then
    NuclinoError.ClientError status message
  else
    NuclinoError.ServerError status message

/-- The response envelope from `src/response_types.rs` (`Response<T>`):
a status string, an optional message, an optional data payload. -/
structure Response (T : Type) where
  status : String
  message : Option String
  data : Option T
deriving Repr

/-- Method `ResponseInfo::message` for `Response<T>`: the envelope's message, or the
empty string when the envelope carried none. (Named `messageText` because the
field projection already takes the source name `message`.) -/
def Response.messageText {T : Type} (r : Response T) : String :=
  match r.message with
  | some msg => msg
  | none => ""

/-- Method `ResponseInfo::is_success` for `Response<T>`. -/
def Response.is_success {T : Type} (r : Response T) : Bool :=
  r.status == "success"

/-- Method `ResponseInfo::is_server_error` for `Response<T>`. -/
def Response.is_server_error {T : Type} (r : Response T) : Bool :=
  r.status == "error"

/-- Method `ResponseInfo::is_client_error` for `Response<T>`. -/
def Response.is_client_error {T : Type} (r : Response T) : Bool :=
  r.status == "fail"

/-- Method `Client::process_response` from `src/lib.rs`, applied to the parsed
envelope. The `status` argument is the numeric HTTP status of the transport
response (`response.status()`); the body has already been parsed as
`Response<T>` (a parse failure would have surfaced earlier as `JsonError`).
-/
def process_response {T : Type} (status : Nat) (body : Response T) :
    Except NuclinoError T :=
  if body.is_success then
    match body.data with
    | some data => Except.ok data
    | none => Except.error NuclinoError.NoDataReturned
  else
    Except.error (make_error status body.messageText)

/-- Enum `PageKind` from `src/request_types.rs`. -/
inductive PageKind where
  | Item : PageKind
  | Collection : PageKind
deriving DecidableEq, Repr

/-- Struct `NewPage` from `src/request_types.rs`: the outbound payload for page
creation. Uuids are modelled as strings. -/
structure NewPage where
  workspace_id : Option String
  parent_id : Option String
  title : Option String
  index : Option Nat
  object : PageKind
  content : Option String
deriving DecidableEq, Repr

/-- Struct `NewPageBuilder` from `src/request_types.rs`: the mutable staging object
for building a `NewPage`. -/
structure NewPageBuilder where
  workspace_id : Option String
  parent_id : Option String
  title : Option String
  index : Option Nat
  object : PageKind
  content : Option String
deriving DecidableEq, Repr

/-- Entry point `NewPageBuilder::item()`: start building an item page, all optional
fields absent. -/
def NewPageBuilder.item : NewPageBuilder :=
  { workspace_id := none, parent_id := none, title := none, index := none
    object := PageKind.Item, content := none }

/-- Entry point `NewPageBuilder::collection()`: start building a collection page, all
optional fields absent. -/
def NewPageBuilder.collection : NewPageBuilder :=
  { workspace_id := none, parent_id := none, title := none, index := none
    object := PageKind.Collection, content := none }

/-- Finalizer `NewPageBuilder::build()`: finalize the page. Content is dropped when the
kind is `Collection`; nothing validates the workspace/parent exclusivity
(that is maintained by the mutators). -/
def NewPageBuilder.build (b : NewPageBuilder) : NewPage :=
  let content :=
    match b.object with
    | PageKind.Collection => none
    | PageKind.Item => b.content
  { workspace_id := b.workspace_id, parent_id := b.parent_id
    title := b.title, index := b.index, object := b.object
    content := content }

/-- Mutator `NewPageBuilder::title(&mut self, title)` (named `setTitle` because the
field projection takes the source name). -/
def NewPageBuilder.setTitle (b : NewPageBuilder) (t : String) : NewPageBuilder :=
  { b with title := some t }

/-- Mutator `NewPageBuilder::index(&mut self, index)`. -/
def NewPageBuilder.setIndex (b : NewPageBuilder) (n : Nat) : NewPageBuilder :=
  { b with index := some n }

/-- Mutator `NewPageBuilder::workspace(&mut self, id)`: sets the workspace id and
clears the parent id. -/
def NewPageBuilder.setWorkspace (b : NewPageBuilder) (id : String) : NewPageBuilder :=
  { b with workspace_id := some id, parent_id := none }

/-- Mutator `NewPageBuilder::parent(&mut self, id)`: sets the parent id and clears
the workspace id. -/
def NewPageBuilder.setParent (b : NewPageBuilder) (id : String) : NewPageBuilder :=
  { b with parent_id := some id, workspace_id := none }

/-- Mutator `NewPageBuilder::content(&mut self, content)`. -/
def NewPageBuilder.setContent (b : NewPageBuilder) (c : String) : NewPageBuilder :=
  { b with content := some c }

/-- One call to a `NewPageBuilder` mutator, for reasoning about arbitrary
call sequences. Each constructor names the source mutator it stands for. -/
inductive BuilderOp where
  | opTitle (t : String) : BuilderOp
  | opIndex (n : Nat) : BuilderOp
  | opWorkspace (id : String) : BuilderOp
  | opParent (id : String) : BuilderOp
  | opContent (c : String) : BuilderOp
deriving DecidableEq, Repr

/-- Apply one mutator call to a builder. -/
def applyOp (b : NewPageBuilder) : BuilderOp → NewPageBuilder
  | BuilderOp.opTitle t => b.setTitle t
  | BuilderOp.opIndex n => b.setIndex n
  | BuilderOp.opWorkspace id => b.setWorkspace id
  | BuilderOp.opParent id => b.setParent id
  | BuilderOp.opContent c => b.setContent c

/-- Apply a sequence of mutator calls, left to right, to a builder. -/
def applyOps (b : NewPageBuilder) (ops : List BuilderOp) : NewPageBuilder :=
  ops.foldl applyOp b

/-- Enum `FieldType` from `src/types.rs`: the enumeration of workspace field
types. -/
inductive FieldType where
  | Date : FieldType
  | Text : FieldType
  | Number : FieldType
  | Currency : FieldType
  | Select : FieldType
  | MultiSelect : FieldType
  | MultiCollaborator : FieldType
  | CreatedBy : FieldType
  | LastUpdatedBy : FieldType
  | CreatedAt : FieldType
  | UpdatedAt : FieldType
deriving DecidableEq, Repr

/-- Method `FieldType::has_config` from `src/types.rs`. -/
def FieldType.has_config : FieldType → Bool
  | FieldType.Number => true
  | FieldType.Currency => true
  | FieldType.Select => true
  | FieldType.MultiSelect => true
  | FieldType.CreatedAt => true
  | FieldType.UpdatedAt => true
  | _ => false

/-- Struct `Meta` from `src/types.rs`: content metadata of an item. -/
structure Meta where
  item_ids : List String
  file_ids : List String
deriving DecidableEq, Repr

/-- Struct `Item` from `src/types.rs`: a regular wiki page. The `fields` hash map is
modelled as an association list. -/
structure Item where
  id : String
  workspace_id : String
  url : String
  title : String
  created_at : String
  created_user_id : String
  last_updated_at : String
  last_updated_user_id : String
  fields : List (String × String)
  content : Option String
  content_meta : Meta
  highlight : Option String
deriving DecidableEq, Repr

/-- Struct `Collection` from `src/types.rs`: a page holding only a list of child
page ids. -/
structure Collection where
  id : String
  workspace_id : String
  url : String
  title : String
  created_at : String
  created_user_id : String
  last_updated_at : String
  last_updated_user_id : String
  child_ids : List String
deriving DecidableEq, Repr

/-- Enum `Page` from `src/types.rs`: the tagged union of items and collections,
discriminated on the wire by the `object` field. -/
inductive Page where
  | Item (v : Item) : Page
  | Collection (v : Collection) : Page
deriving DecidableEq, Repr

/-- Accessor `Page::id`: dispatches on the active variant. -/
def Page.id : Page → String
  | Page.Item v => v.id
  | Page.Collection v => v.id

/-- Accessor `Page::workspace`: dispatches on the active variant. -/
def Page.workspace : Page → String
  | Page.Item v => v.workspace_id
  | Page.Collection v => v.workspace_id

/-- Accessor `Page::url`: dispatches on the active variant. -/
def Page.url : Page → String
  | Page.Item v => v.url
  | Page.Collection v => v.url

/-- Accessor `Page::title`: dispatches on the active variant. -/
def Page.title : Page → String
  | Page.Item v => v.title
  | Page.Collection v => v.title

/-- Accessor `Page::created`: dispatches on the active variant. -/
def Page.created : Page → String
  | Page.Item v => v.created_at
  | Page.Collection v => v.created_at

/-- Accessor `Page::created_by`: dispatches on the active variant. -/
def Page.created_by : Page → String
  | Page.Item v => v.created_user_id
  | Page.Collection v => v.created_user_id

/-- Accessor `Page::modified`: dispatches on the active variant. -/
def Page.modified : Page → String
  | Page.Item v => v.last_updated_at
  | Page.Collection v => v.last_updated_at

/-- Accessor `Page::modified_by`: dispatches on the active variant. -/
def Page.modified_by : Page → String
  | Page.Item v => v.last_updated_user_id
  | Page.Collection v => v.last_updated_user_id

/-- JSON documents, for stating the serde-derived wire behavior declared by
the attributes on the Rust types. -/
inductive Json where
  | null : Json
  | str (s : String) : Json
  | num (n : Nat) : Json
  | bool (b : Bool) : Json
  | arr (elems : List Json) : Json
  | obj (fields : List (String × Json)) : Json

/-- Look a key up in a JSON object; `none` for a missing key or a non-object.
-/
def Json.lookup (j : Json) (key : String) : Option Json :=
  match j with
  | Json.obj fields => fields.lookup key
  | _ => none

/-- The keys of a JSON object, in emission order. -/
def Json.keys (j : Json) : List String :=
  match j with
  | Json.obj fields => fields.map Prod.fst
  | _ => []

/-- Serialization of `PageKind` under `#[serde(rename_all = "camelCase")]`:
the variants emit as the strings `"item"` and `"collection"`. -/
def PageKind.toJson : PageKind → Json
  | PageKind.Item => Json.str "item"
  | PageKind.Collection => Json.str "collection"

/-- One field of a `#[skip_serializing_none]` serialization: an absent
optional field is omitted entirely, a present one is emitted under its
camelCase name. -/
def optionalField (name : String) (value : Option Json) : List (String × Json) :=
  match value with
  | none => []
  | some j => [(name, j)]

/-- Serialization of `NewPage` as declared by its derive attributes in
`src/request_types.rs`: `#[skip_serializing_none]` omits absent optional
fields (no `null` is ever emitted for them), `rename_all = "camelCase"`
renames the snake_case field names, and fields are emitted in declaration
order. -/
def NewPage.toJson (p : NewPage) : Json :=
  Json.obj
    (optionalField "workspaceId" (p.workspace_id.map Json.str) ++
     optionalField "parentId" (p.parent_id.map Json.str) ++
     optionalField "title" (p.title.map Json.str) ++
     optionalField "index" (p.index.map Json.num) ++
     [("object", p.object.toJson)] ++
     optionalField "content" (p.content.map Json.str))

/-- Read an optional string field: an absent key decodes to `none`, a string
value to `some`, anything else is a decode failure. -/
def getOptStr (j : Json) (key : String) : Option (Option String) :=
  match j.lookup key with
  | none => some none
  | some (Json.str s) => some (some s)
  | some _ => none

/-- Read an optional numeric field: an absent key decodes to `none`, a
number value to `some`, anything else is a decode failure. -/
def getOptNum (j : Json) (key : String) : Option (Option Nat) :=
  match j.lookup key with
  | none => some none
  | some (Json.num n) => some (some n)
  | some _ => none

/-- Read a required string field. -/
def getStr (j : Json) (key : String) : Option String :=
  match j.lookup key with
  | some (Json.str s) => some s
  | _ => none

/-- Read a required array-of-strings field. -/
def getStrList (j : Json) (key : String) : Option (List String) :=
  match j.lookup key with
  | some (Json.arr elems) =>
      elems.mapM (fun e => match e with | Json.str s => some s | _ => none)
  | _ => none

/-- Read a required object field whose values are all strings, as an
association list (the model of `HashMap<String, String>`). -/
def getStrMap (j : Json) (key : String) : Option (List (String × String)) :=
  match j.lookup key with
  | some (Json.obj fields) =>
      fields.mapM (fun kv =>
        match kv with
        | (k, Json.str s) => some (k, s)
        | _ => none)
  | _ => none

/-- Decode the `PageKind` tag string. -/
def PageKind.fromJson (j : Json) : Option PageKind :=
  match j with
  | Json.str "item" => some PageKind.Item
  | Json.str "collection" => some PageKind.Collection
  | _ => none

/-- Modelled from the spec: `NewPage` derives only `Serialize` in the source,
so the source carries no decoder for it; the spec's round-trip property
(section 8) needs one. This decoder reads each camelCase field back,
mirroring the serialization declared on the struct. -/
def NewPage.fromJson (j : Json) : Option NewPage :=
  match getOptStr j "workspaceId", getOptStr j "parentId", getOptStr j "title",
      getOptNum j "index", (j.lookup "object").bind PageKind.fromJson,
      getOptStr j "content" with
  | some w, some p, some t, some i, some o, some c =>
      some { workspace_id := w, parent_id := p, title := t, index := i
             object := o, content := c }
  | _, _, _, _, _, _ => none

/-- Decode of `Meta` (`src/types.rs`), per its camelCase derive: both id
lists are required. -/
def Meta.fromJson (j : Json) : Option Meta :=
  match getStrList j "itemIds", getStrList j "fileIds" with
  | some items, some files => some { item_ids := items, file_ids := files }
  | _, _ => none

/-- Decode of `Item` (`src/types.rs`) per its serde derive: the identity,
timestamp and `fields` members are required; `content` and `highlight` are
optional. -/
def Item.fromJson (j : Json) : Option Item :=
  match getStr j "id", getStr j "workspaceId", getStr j "url",
      getStr j "title", getStr j "createdAt", getStr j "createdUserId",
      getStr j "lastUpdatedAt", getStr j "lastUpdatedUserId",
      getStrMap j "fields", getOptStr j "content",
      (j.lookup "contentMeta").bind Meta.fromJson,
      getOptStr j "highlight" with
  | some i, some w, some u, some t, some ca, some cu, some la, some lu,
    some fs, some co, some cm, some hi =>
      some { id := i, workspace_id := w, url := u, title := t
             created_at := ca, created_user_id := cu
             last_updated_at := la, last_updated_user_id := lu
             fields := fs, content := co, content_meta := cm, highlight := hi }
  | _, _, _, _, _, _, _, _, _, _, _, _ => none

/-- Decode of `Collection` (`src/types.rs`) per its serde derive: every
member, including `childIds`, is required. -/
def Collection.fromJson (j : Json) : Option Collection :=
  match getStr j "id", getStr j "workspaceId", getStr j "url",
      getStr j "title", getStr j "createdAt", getStr j "createdUserId",
      getStr j "lastUpdatedAt", getStr j "lastUpdatedUserId",
      getStrList j "childIds" with
  | some i, some w, some u, some t, some ca, some cu, some la, some lu,
    some ch =>
      some { id := i, workspace_id := w, url := u, title := t
             created_at := ca, created_user_id := cu
             last_updated_at := la, last_updated_user_id := lu
             child_ids := ch }
  | _, _, _, _, _, _, _, _, _ => none

/-- Decode of `Page` per `#[serde(tag = "object", rename_all = "camelCase")]`
in `src/types.rs`: the `object` discriminator selects the variant; an
unrecognized or missing discriminator is a decode failure. -/
def Page.fromJson (j : Json) : Option Page :=
  match getStr j "object" with
  | some "item" => (Item.fromJson j).map Page.Item
  | some "collection" => (Collection.fromJson j).map Page.Collection
  | _ => none

/-- Decode of the `List<Page>` results wrapper (`src/response_types.rs`):
the required `results` member is decoded elementwise, in order. -/
def pageListFromJson (j : Json) : Option (List Page) :=
  match j.lookup "results" with
  | some (Json.arr elems) => elems.mapM Page.fromJson
  | _ => none

/-- The crate reads response bodies with ureq 2.x `Response::into_json`,
which returns `io::Result<T>` and wraps every serde failure in an
`io::Error` whose message carries the "Failed to read JSON: " prefix; the
`?` at each `into_json` call site in `src/lib.rs` then applies the
`#[from] std::io::Error` conversion in `src/errors.rs`, producing
`NuclinoError::IoError` — never `JsonError`, whose `#[from]
serde_json::Error` arm no library code path reaches. This wraps the decoder
accordingly (the message text stands in for serde's detailed one). -/
def decodePageList (j : Json) : Except NuclinoError (List Page) :=
  match pageListFromJson j with
  | some pages => Except.ok pages
  | none => Except.error (NuclinoError.IoError "Failed to read JSON: unknown variant")

/-- Whether a result failed with the `JsonError` kind specifically. -/
def failedWithJsonError {T : Type} : Except NuclinoError T → Bool
  | Except.error (NuclinoError.JsonError _) => true
  | _ => false

/-- Constant `BASE_URL` from `src/lib.rs`. -/
def BASE_URL : String := "https://api.nuclino.com"

/-- Constant `APIKEY_ENV_VAR` from `src/lib.rs`. -/
def APIKEY_ENV_VAR : String := "NUCLINO_API_KEY"

/-- The `Client` struct from `src/lib.rs`, without the `ureq::Agent`
transport handle (the agent holds no request state; it is configured once at
construction and performs no network traffic until an endpoint method is
called). -/
structure Client where
  apikey : String
  baseurl : String
deriving DecidableEq, Repr

/-- Constructor `Client::create` from `src/lib.rs`: stores the key and either the given
base url or the default. No request is issued. -/
def Client.create (apikey : String) (base_url : Option String) : Client :=
  { apikey := apikey
    baseurl :=
      match base_url with
      | some base => base
      | none => BASE_URL }

/-- Constructor `Client::create_from_env` from `src/lib.rs`. The process environment is
modelled as a function from variable names to optional values; the only
effect of the source function is the single `std::env::var` read — no
network call occurs. -/
def create_from_env (env : String → Option String) : Except NuclinoError Client :=
  match env APIKEY_ENV_VAR with
  | none => Except.error NuclinoError.ApiKeyNotFound
  | some key => Except.ok (Client.create key none)

/-- URL construction of `Client::all_pages_for_team` (`src/lib.rs`): a query
vector seeded with `"?"` and `teamId=`, then `&limit=` for the limit when
present, then — as the source is written — `&limit=` again for the `after`
cursor when present; joined with the empty separator. -/
def all_pages_for_team_url (baseurl team : String) (limit : Option Nat)
    (after : Option String) : String :=
  let query : List String :=
    ["?"] ++ ["teamId=" ++ team] ++
    (match limit with
     | some lim => ["&limit=" ++ toString lim]
     | none => []) ++
    (match after with
     | some id => ["&limit=" ++ id]
     | none => [])
  baseurl ++ "/v0/items" ++ String.join query

/-- URL construction of `Client::all_pages_for_workspace` (`src/lib.rs`):
identical to the team variant, with `workspaceId=` in place of `teamId=`. -/
def all_pages_for_workspace_url (baseurl workspace : String)
    (limit : Option Nat) (after : Option String) : String :=
  let query : List String :=
    ["?"] ++ ["workspaceId=" ++ workspace] ++
    (match limit with
     | some lim => ["&limit=" ++ toString lim]
     | none => []) ++
    (match after with
     | some id => ["&limit=" ++ id]
     | none => [])
  baseurl ++ "/v0/items" ++ String.join query

/-- The Item-tagged element of the sample list payload, after the example
data in the repository's `item_list` test (`src/types.rs`). -/
def sampleItemJson : Json :=
  Json.obj
    [("object", Json.str "item"),
     ("id", Json.str "aaf6d580-565d-497b-9ff3-b32075de3f4c"),
     ("workspaceId", Json.str "127a8c4a-b3c6-4a42-8fef-b6c521e6c8cf"),
     ("url", Json.str "https://app.nuclino.com/t/b/aaf6d580"),
     ("title", Json.str "My Item"),
     ("createdAt", Json.str "2021-12-15T15:55:19.527Z"),
     ("createdUserId", Json.str "2e96f3bb-c742-4164-af2c-151ab2fd346b"),
     ("lastUpdatedAt", Json.str "2021-12-15T17:02:53.487Z"),
     ("lastUpdatedUserId", Json.str "2e96f3bb-c742-4164-af2c-151ab2fd346b"),
     ("fields", Json.obj [("My date field", Json.str "2025-01-20")]),
     ("contentMeta", Json.obj [("itemIds", Json.arr []), ("fileIds", Json.arr [])])]

/-- The Collection-tagged element of the sample list payload, after the
example data in the repository's `item_list` test (`src/types.rs`). -/
def sampleCollectionJson : Json :=
  Json.obj
    [("object", Json.str "collection"),
     ("id", Json.str "e9e648b3-8ce3-410d-8ef8-51b46c63cdaf"),
     ("workspaceId", Json.str "127a8c4a-b3c6-4a42-8fef-b6c521e6c8cf"),
     ("url", Json.str "https://app.nuclino.com/t/b/e9e648b3"),
     ("title", Json.str "My collection"),
     ("createdAt", Json.str "2021-12-15T17:02:56.276Z"),
     ("createdUserId", Json.str "2e96f3bb-c742-4164-af2c-151ab2fd346b"),
     ("lastUpdatedAt", Json.str "2021-12-15T17:03:00.389Z"),
     ("lastUpdatedUserId", Json.str "2e96f3bb-c742-4164-af2c-151ab2fd346b"),
     ("childIds", Json.arr [])]

/-- The decoded form of `sampleItemJson`. -/
def sampleItem : Item :=
  { id := "aaf6d580-565d-497b-9ff3-b32075de3f4c"
    workspace_id := "127a8c4a-b3c6-4a42-8fef-b6c521e6c8cf"
    url := "https://app.nuclino.com/t/b/aaf6d580"
    title := "My Item"
    created_at := "2021-12-15T15:55:19.527Z"
    created_user_id := "2e96f3bb-c742-4164-af2c-151ab2fd346b"
    last_updated_at := "2021-12-15T17:02:53.487Z"
    last_updated_user_id := "2e96f3bb-c742-4164-af2c-151ab2fd346b"
    fields := [("My date field", "2025-01-20")]
    content := none
    content_meta := { item_ids := [], file_ids := [] }
    highlight := none }

/-- The decoded form of `sampleCollectionJson`. -/
def sampleCollection : Collection :=
  { id := "e9e648b3-8ce3-410d-8ef8-51b46c63cdaf"
    workspace_id := "127a8c4a-b3c6-4a42-8fef-b6c521e6c8cf"
    url := "https://app.nuclino.com/t/b/e9e648b3"
    title := "My collection"
    created_at := "2021-12-15T17:02:56.276Z"
    created_user_id := "2e96f3bb-c742-4164-af2c-151ab2fd346b"
    last_updated_at := "2021-12-15T17:03:00.389Z"
    last_updated_user_id := "2e96f3bb-c742-4164-af2c-151ab2fd346b"
    child_ids := [] }

/-- A list payload holding one Item-tagged and one Collection-tagged
element, in that order. -/
def samplePageListJson : Json :=
  Json.obj [("results", Json.arr [sampleItemJson, sampleCollectionJson])]

/-- An element whose `object` discriminator is a value neither variant
declares. -/
def badTagPageJson : Json :=
  Json.obj
    [("object", Json.str "gadget"),
     ("id", Json.str "aaf6d580-565d-497b-9ff3-b32075de3f4c"),
     ("title", Json.str "My Item")]

/-- A list payload whose single element carries the unrecognized
discriminator. -/
def badTagListJson : Json :=
  Json.obj [("results", Json.arr [badTagPageJson])]

/-! Helper lemmas shared by the claim theorems. -/

/-- Lemma: `build` copies the workspace id unchanged. -/
theorem build_workspace_id (b : NewPageBuilder) :
    b.build.workspace_id = b.workspace_id := rfl

/-- Lemma: `build` copies the parent id unchanged. -/
theorem build_parent_id (b : NewPageBuilder) :
    b.build.parent_id = b.parent_id := rfl

/-- No mutator call changes the page kind fixed by the entry point. -/
theorem applyOps_object (b : NewPageBuilder) (ops : List BuilderOp) :
    (applyOps b ops).object = b.object := by
  induction ops generalizing b with
  | nil => rfl
  | cons op rest ih =>
      have step : applyOps b (op :: rest) = applyOps (applyOp b op) rest := rfl
      rw [step, ih]
      cases op <;> rfl

/-- Every mutator call preserves the workspace/parent exclusivity
invariant. -/
theorem applyOps_exclusive (b : NewPageBuilder)
    (h : b.workspace_id = none ∨ b.parent_id = none) (ops : List BuilderOp) :
    (applyOps b ops).workspace_id = none ∨ (applyOps b ops).parent_id = none := by
  induction ops generalizing b with
  | nil => exact h
  | cons op rest ih =>
      have step : applyOps b (op :: rest) = applyOps (applyOp b op) rest := rfl
      rw [step]
      apply ih
      cases op with
      | opTitle t => simpa [applyOp, NewPageBuilder.setTitle] using h
      | opIndex n => simpa [applyOp, NewPageBuilder.setIndex] using h
      | opWorkspace id => exact Or.inr rfl
      | opParent id => exact Or.inl rfl
      | opContent c => simpa [applyOp, NewPageBuilder.setContent] using h

/-! Claim theorems. -/

/-- C9: `FieldType::has_config` returns true exactly for Number, Currency,
Select, MultiSelect, CreatedAt and UpdatedAt, and false for Date, Text,
MultiCollaborator, CreatedBy and LastUpdatedBy. -/
theorem has_config_truth_table :
    (∀ ft : FieldType, ft.has_config = true ↔
        (ft = FieldType.Number ∨ ft = FieldType.Currency ∨
         ft = FieldType.Select ∨ ft = FieldType.MultiSelect ∨
         ft = FieldType.CreatedAt ∨ ft = FieldType.UpdatedAt)) ∧
    FieldType.Date.has_config = false ∧
    FieldType.Text.has_config = false ∧
    FieldType.MultiCollaborator.has_config = false ∧
    FieldType.CreatedBy.has_config = false ∧
    FieldType.LastUpdatedBy.has_config = false := by
  refine ⟨fun ft => ?_, rfl, rfl, rfl, rfl, rfl⟩
  cases ft <;> decide

/-- C3: `workspace(W)` sets the workspace id and clears the parent id,
`parent(P)` sets the parent id and clears the workspace id, and after any
sequence of builder calls starting from either entry point, at most one of
the two ids is set in the built `NewPage`. -/
theorem workspace_parent_exclusive :
    (∀ (b : NewPageBuilder) (W : String),
        (b.setWorkspace W).workspace_id = some W ∧
        (b.setWorkspace W).parent_id = none) ∧
    (∀ (b : NewPageBuilder) (P : String),
        (b.setParent P).parent_id = some P ∧
        (b.setParent P).workspace_id = none) ∧
    (∀ ops : List BuilderOp,
        ((applyOps NewPageBuilder.item ops).build.workspace_id = none ∨
         (applyOps NewPageBuilder.item ops).build.parent_id = none) ∧
        ((applyOps NewPageBuilder.collection ops).build.workspace_id = none ∨
         (applyOps NewPageBuilder.collection ops).build.parent_id = none)) := by
  refine ⟨fun b W => ⟨rfl, rfl⟩, fun b P => ⟨rfl, rfl⟩, fun ops => ⟨?_, ?_⟩⟩
  · rw [build_workspace_id, build_parent_id]
    exact applyOps_exclusive NewPageBuilder.item (Or.inl rfl) ops
  · rw [build_workspace_id, build_parent_id]
    exact applyOps_exclusive NewPageBuilder.collection (Or.inl rfl) ops

/-- C4: any builder started with `collection()` builds a `NewPage` with
absent content, even when `content(C)` was called; on an item-kind builder,
`build()` preserves the staged content, and in particular a trailing
`content(C)` call yields content `C`. -/
theorem collection_content_dropped :
    (∀ ops : List BuilderOp,
        (applyOps NewPageBuilder.collection ops).build.content = none) ∧
    (∀ ops : List BuilderOp,
        (applyOps NewPageBuilder.item ops).build.content =
          (applyOps NewPageBuilder.item ops).content) ∧
    (∀ (ops : List BuilderOp) (C : String),
        (applyOps NewPageBuilder.item
            (ops ++ [BuilderOp.opContent C])).build.content = some C) := by
  have hbuild : ∀ b : NewPageBuilder, b.build.content =
      (match b.object with
       | PageKind.Collection => none
       | PageKind.Item => b.content) := fun b => rfl
  have hcoll : ∀ ops : List BuilderOp,
      (applyOps NewPageBuilder.collection ops).build.content = none := by
    intro ops
    rw [hbuild, applyOps_object]
    rfl
  have hitem : ∀ ops : List BuilderOp,
      (applyOps NewPageBuilder.item ops).build.content =
        (applyOps NewPageBuilder.item ops).content := by
    intro ops
    rw [hbuild, applyOps_object]
    rfl
  refine ⟨hcoll, hitem, fun ops C => ?_⟩
  rw [hitem]
  have : applyOps NewPageBuilder.item (ops ++ [BuilderOp.opContent C]) =
      (applyOps NewPageBuilder.item ops).setContent C := by
    simp [applyOps, List.foldl_append, applyOp]
  rw [this]
  rfl

/-- On a non-success envelope, `process_response` yields exactly the error
built by `make_error` from the HTTP status code and the envelope's message
text. -/
theorem process_response_failure {T : Type} (S : Nat) (env : Response T)
    (h : env.status ≠ "success") :
    process_response S env = Except.error (make_error S env.messageText) := by
  have hfalse : env.is_success = false := by
    simp [Response.is_success, h]
  simp [process_response, hfalse]

/-- C1: on a well-formed envelope, a `"success"` status with payload `P`
decodes to exactly `P`; a `"fail"` or `"error"` status with HTTP status `S`
decodes to `ClientError` when `S < 500` and `ServerError` when `500 ≤ S`,
carrying the envelope's message string, or the empty string when the
envelope had no message. -/
theorem envelope_decoding_spec :
    (∀ (T : Type) (S : Nat) (env : Response T) (P : T),
        env.status = "success" → env.data = some P →
        process_response S env = Except.ok P) ∧
    (∀ (T : Type) (S : Nat) (env : Response T),
        (env.status = "fail" ∨ env.status = "error") → S < 500 →
        process_response S env =
          Except.error (NuclinoError.ClientError S (env.message.getD ""))) ∧
    (∀ (T : Type) (S : Nat) (env : Response T),
        (env.status = "fail" ∨ env.status = "error") → 500 ≤ S →
        process_response S env =
          Except.error (NuclinoError.ServerError S (env.message.getD ""))) := by
  have hmsg : ∀ (T : Type) (env : Response T), env.messageText = env.message.getD "" := by
    intro T env
    cases h : env.message <;> simp [Response.messageText, h]
  have hne : ∀ (T : Type) (env : Response T),
      (env.status = "fail" ∨ env.status = "error") → env.status ≠ "success" := by
    intro T env h
    obtain h | h := h <;> simp [h]
  refine ⟨?_, ?_, ?_⟩
  · intro T S env P hs hd
    have htrue : env.is_success = true := by
      simp [Response.is_success, hs]
    simp [process_response, htrue, hd]
  · intro T S env h hlt
    rw [process_response_failure S env (hne T env h), hmsg T env]
    simp [make_error, hlt]
  · intro T S env h hge
    rw [process_response_failure S env (hne T env h), hmsg T env]
    simp [make_error, Nat.not_lt_of_le hge]

/-- Witness for C1 at concrete envelopes: a success envelope with payload 7,
a fail envelope at HTTP 404, an error envelope at HTTP 503 with no message.
-/
theorem envelope_decoding_spec_witness :
    process_response 200 (Response.mk "success" none (some 7)) = Except.ok 7 ∧
    process_response 404 (Response.mk (T := Nat) "fail" (some "bad request") none) =
      Except.error (NuclinoError.ClientError 404 "bad request") ∧
    process_response 503 (Response.mk (T := Nat) "error" none none) =
      Except.error (NuclinoError.ServerError 503 "") := by
  refine ⟨envelope_decoding_spec.1 Nat 200 _ 7 rfl rfl, ?_, ?_⟩
  · have h := envelope_decoding_spec.2.1 Nat 404
      (Response.mk "fail" (some "bad request") none) (Or.inl rfl) (by decide)
    simpa using h
  · have h := envelope_decoding_spec.2.2 Nat 503
      (Response.mk "error" none none) (Or.inr rfl) (by decide)
    simpa using h

/-- C2: a `"success"` envelope with an absent data field decodes to the
`NoDataReturned` error — a kind distinct from the transport and JSON error
kinds — and never to a fabricated payload. -/
theorem no_data_returned_spec :
    (∀ (T : Type) (S : Nat) (env : Response T),
        env.status = "success" → env.data = none →
        process_response S env = Except.error NuclinoError.NoDataReturned) ∧
    (∀ t, NuclinoError.NoDataReturned ≠ NuclinoError.RequestError t) ∧
    (∀ t, NuclinoError.NoDataReturned ≠ NuclinoError.JsonError t) ∧
    (∀ t, NuclinoError.NoDataReturned ≠ NuclinoError.IoError t) ∧
    (∀ (T : Type) (S : Nat) (env : Response T) (P : T),
        env.status = "success" → env.data = none →
        process_response S env ≠ Except.ok P) := by
  have hmain : ∀ (T : Type) (S : Nat) (env : Response T),
      env.status = "success" → env.data = none →
      process_response S env = Except.error NuclinoError.NoDataReturned := by
    intro T S env hs hd
    have htrue : env.is_success = true := by
      simp [Response.is_success, hs]
    simp [process_response, htrue, hd]
  refine ⟨hmain, fun t h => ?_, fun t h => ?_, fun t h => ?_, ?_⟩
  · cases h
  · cases h
  · cases h
  · intro T S env P hs hd
    rw [hmain T S env hs hd]
    intro h
    cases h

/-- Witness for C2: a success envelope with no data, over payload type
`Nat`, at HTTP status 200. -/
theorem no_data_returned_spec_witness :
    process_response 200 (Response.mk (T := Nat) "success" none none) =
      Except.error NuclinoError.NoDataReturned ∧
    NuclinoError.NoDataReturned ≠ NuclinoError.JsonError "oops" ∧
    process_response 200 (Response.mk (T := Nat) "success" none none) ≠
      Except.ok 0 :=
  ⟨no_data_returned_spec.1 Nat 200 (Response.mk "success" none none) rfl rfl,
   no_data_returned_spec.2.2.1 "oops",
   no_data_returned_spec.2.2.2.2 Nat 200 (Response.mk "success" none none) 0 rfl rfl⟩

/-- C10: the choice between `ClientError` and `ServerError` depends only on
the numeric HTTP status code, never on the envelope's status string: every
non-success envelope classifies by `S < 500` alone, and two non-success
envelopes with the same message — one with status string `"fail"`, one with
`"error"` — classify identically at the same HTTP status code. -/
theorem error_kind_by_http_status :
    (∀ (T : Type) (S : Nat) (env : Response T),
        env.status ≠ "success" →
        process_response S env =
          Except.error
            (if S < 500 then NuclinoError.ClientError S env.messageText
             else NuclinoError.ServerError S env.messageText)) ∧
    (∀ (T U : Type) (S : Nat) (e₁ : Response T) (e₂ : Response U),
        e₁.status ≠ "success" → e₂.status ≠ "success" →
        e₁.message = e₂.message →
        process_response S e₁ = Except.error (make_error S e₂.messageText)) := by
  constructor
  · intro T S env h
    rw [process_response_failure S env h]
    simp [make_error]
  · intro T U S e₁ e₂ h₁ h₂ hmsg
    rw [process_response_failure S e₁ h₁]
    have : e₁.messageText = e₂.messageText := by
      simp [Response.messageText, hmsg]
    rw [this]

/-- Witness for C10: an envelope with status string `"fail"` (the
`is_client_error` predicate) delivered at HTTP 500 classifies as
`ServerError`, and one with status string `"error"` (the `is_server_error`
predicate) delivered at HTTP 404 classifies as `ClientError`; and a `"fail"`
and an `"error"` envelope with the same message classify identically at
HTTP 500. -/
theorem error_kind_by_http_status_witness :
    process_response 500 (Response.mk (T := Nat) "fail" (some "m") none) =
      Except.error (NuclinoError.ServerError 500 "m") ∧
    process_response 404 (Response.mk (T := Nat) "error" (some "m") none) =
      Except.error (NuclinoError.ClientError 404 "m") ∧
    process_response 500 (Response.mk (T := Nat) "fail" (some "m") none) =
      Except.error
        (make_error 500 (Response.messageText (Response.mk (T := Bool) "error" (some "m") none))) := by
  refine ⟨?_, ?_, ?_⟩
  · have h := error_kind_by_http_status.1 Nat 500
      (Response.mk "fail" (some "m") none) (by simp)
    simpa using h
  · have h := error_kind_by_http_status.1 Nat 404
      (Response.mk "error" (some "m") none) (by simp)
    simpa using h
  · exact error_kind_by_http_status.2 Nat Bool 500
      (Response.mk "fail" (some "m") none)
      (Response.mk "error" (some "m") none) (by simp) (by simp) rfl

/-- C5: the `NewPage` built by `item().title(T).content(C).workspace(W)`
serializes with the parent field omitted entirely (it appears in no key
list, and no `null` is emitted for it), and deserializing the serialized
form restores exactly the built page — in particular `T`, `C` and `W`. -/
theorem new_page_roundtrip (T C W : String) :
    (((NewPageBuilder.item.setTitle T).setContent C).setWorkspace W).build =
      NewPage.mk (some W) none (some T) none PageKind.Item (some C) ∧
    (NewPage.mk (some W) none (some T) none PageKind.Item (some C)).toJson =
      Json.obj [("workspaceId", Json.str W), ("title", Json.str T),
                ("object", Json.str "item"), ("content", Json.str C)] ∧
    (NewPage.mk (some W) none (some T) none PageKind.Item (some C)).toJson.keys =
      ["workspaceId", "title", "object", "content"] ∧
    (NewPage.mk (some W) none (some T) none PageKind.Item (some C)).toJson.lookup
      "parentId" = none ∧
    NewPage.fromJson
        (NewPage.mk (some W) none (some T) none PageKind.Item (some C)).toJson =
      some (NewPage.mk (some W) none (some T) none PageKind.Item (some C)) :=
  ⟨rfl, rfl, rfl, rfl, rfl⟩

/-- C6 counterexample: at the concrete list payload whose single element
carries an unrecognized discriminator, decoding does fail, but the claimed
`JsonError` kind never appears — the failure carries the `IoError` kind,
because ureq 2.x `into_json` returns `io::Result` and the `?` at each call
site fires the `io::Error` conversion, so the library never constructs
`JsonError`. -/
theorem page_list_bad_tag_not_json_error :
    failedWithJsonError (decodePageList badTagListJson) = false ∧
    decodePageList badTagListJson =
      Except.error (NuclinoError.IoError "Failed to read JSON: unknown variant") :=
  ⟨rfl, rfl⟩

/-- C6 (amended): a list payload with one Item-tagged and one
Collection-tagged element decodes to a two-element sequence whose variants
match the input tags in order; `id()` and `title()` return each element's
own id and title on both variants; and an unrecognized discriminator is a
decode failure — surfacing as `IoError`, through ureq's `io::Result`-typed
`into_json` — not a silently skipped element. -/
theorem page_list_decoding :
    pageListFromJson samplePageListJson =
      some [Page.Item sampleItem, Page.Collection sampleCollection] ∧
    decodePageList samplePageListJson =
      Except.ok [Page.Item sampleItem, Page.Collection sampleCollection] ∧
    [Page.Item sampleItem, Page.Collection sampleCollection].map Page.id =
      ["aaf6d580-565d-497b-9ff3-b32075de3f4c",
       "e9e648b3-8ce3-410d-8ef8-51b46c63cdaf"] ∧
    [Page.Item sampleItem, Page.Collection sampleCollection].map Page.title =
      ["My Item", "My collection"] ∧
    Page.fromJson badTagPageJson = none ∧
    decodePageList badTagListJson =
      Except.error (NuclinoError.IoError "Failed to read JSON: unknown variant") :=
  ⟨rfl, rfl, rfl, rfl, rfl, rfl⟩

/-- C7: without the credential variable, `create_from_env` fails with
`ApiKeyNotFound` (its only effect is the single environment read — no
request is issued); with the variable set, it returns a client holding that
key and the default base url. -/
theorem create_from_env_spec :
    (∀ env : String → Option String,
        env APIKEY_ENV_VAR = none →
        create_from_env env = Except.error NuclinoError.ApiKeyNotFound) ∧
    (∀ (env : String → Option String) (key : String),
        env APIKEY_ENV_VAR = some key →
        create_from_env env = Except.ok (Client.mk key BASE_URL)) := by
  constructor
  · intro env h
    simp [create_from_env, h]
  · intro env key h
    simp [create_from_env, h, Client.create]

/-- Witness for C7: an empty environment fails with `ApiKeyNotFound`; an
environment carrying a key succeeds with that key and the default base url.
-/
theorem create_from_env_spec_witness :
    create_from_env (fun _ => none) = Except.error NuclinoError.ApiKeyNotFound ∧
    create_from_env (fun _ => some "secret-key") =
      Except.ok (Client.mk "secret-key" BASE_URL) :=
  ⟨create_from_env_spec.1 (fun _ => none) rfl,
   create_from_env_spec.2 (fun _ => some "secret-key") "secret-key" rfl⟩

/-- C8: when an `after` cursor is supplied to `all_pages_for_team` or
`all_pages_for_workspace`, the constructed URL is exactly the cursorless URL
with `&limit=<cursor>` appended — the cursor value travels under the `limit`
query key, and no `after` key is emitted. -/
theorem after_cursor_sent_as_limit :
    (∀ (base team id : String) (lim : Option Nat),
        all_pages_for_team_url base team lim (some id) =
          all_pages_for_team_url base team lim none ++ "&limit=" ++ id) ∧
    (∀ (base ws id : String) (lim : Option Nat),
        all_pages_for_workspace_url base ws lim (some id) =
          all_pages_for_workspace_url base ws lim none ++ "&limit=" ++ id) := by
  constructor
  · intro base team id lim
    cases lim <;>
      simp [all_pages_for_team_url, String.join, String.append_assoc]
  · intro base ws id lim
    cases lim <;>
      simp [all_pages_for_workspace_url, String.join, String.append_assoc]

end Nuclino
